import Mathlib

/-!
Shallow embedding of the two firmware sketches of this repository:
`src/main.cpp` (Modbus-driven "bus" variant) and `src/main_simple.cpp`
(standalone variant).  Pure functions model the business logic: the
register decoding, the per-tick mode dispatch, the scroll arithmetic and
the text formatting.  Timestamps are idealized unbounded milliseconds;
the 32-bit wrap of the firmware's `millis()` subtraction is modelled
explicitly by `elapsed32`.
-/

namespace P10

/-- Render commands issued to the DMD panel driver (`clearScreen` and
`drawString x y text`). -/
inductive Cmd where
  | clear : Cmd
  | draw : Int → Int → String → Cmd
deriving DecidableEq, Repr

/-- The firmware computes elapsed time as `millis() - last` on 32-bit
unsigned arithmetic.  `elapsed32 now last` is that modular difference:
`(now - last) mod 2^32` for the wrapped 32-bit views of the two
timestamps. -/
def elapsed32 (now last : Nat) : Nat :=
  (now % 4294967296 + 4294967296 - last % 4294967296) % 4294967296

/-- `(int16_t)v` reinterpretation of a `uint16_t` register value, as in
`priceValue = (int16_t)mb.Hreg(2)`. -/
def toInt16 (v : Nat) : Int :=
  if v % 65536 < 32768 then (v % 65536 : Int) else (v % 65536 : Int) - 65536

/-! ### Bus variant (`src/main.cpp`) -/

/-- The scrolled text of the bus variant (`String welcomeText = "Welcome"`). -/
def welcomeText : String := "Welcome"

/-- The four Modbus holding registers (each a `uint16_t`). -/
structure HRegs where
  r0 : Nat
  r1 : Nat
  r2 : Nat
  r3 : Nat
deriving DecidableEq, Repr

/-- The global display variables of `main.cpp`. -/
structure BusState where
  displayMode : Nat
  scrollSpeed : Nat
  scrollX : Int
  lastScrollTime : Nat
  priceValue : Int
  timeValue : Int
deriving DecidableEq, Repr

/-- `updateDisplayFromModbus()` of `main.cpp`: copies register 0, copies
register 1 only when it lies in `[50, 500]`, reinterprets registers 2 and
3 as signed, and resets the scroll position when the mode is Welcome. -/
def updateDisplayFromModbus (regs : HRegs) (s : BusState) : BusState :=
  let s := { s with displayMode := regs.r0 }
  let s := if 50 ≤ regs.r1 ∧ regs.r1 ≤ 500 then { s with scrollSpeed := regs.r1 } else s
  let s := { s with priceValue := toInt16 regs.r2, timeValue := toInt16 regs.r3 }
  if s.displayMode = 1 then { s with scrollX := 32 } else s

/-- Result code of a Modbus transaction as seen by the callback
(`Modbus::EX_SUCCESS` versus anything else). -/
inductive ModbusResult where
  | success : ModbusResult
  | failure : ModbusResult
deriving DecidableEq, Repr

/-- `modbusCallback()` of `main.cpp`: on `EX_SUCCESS` it refreshes the
display variables from the registers. -/
def modbusCallback (event : ModbusResult) (regs : HRegs) (s : BusState) : BusState :=
  if event = ModbusResult.success then updateDisplayFromModbus regs s else s

/-- The wrap threshold of the bus scroll:
`-((int)welcomeText.length() * 6)`. -/
def busWrapThreshold : Int := -((welcomeText.length : Int) * 6)

/-- One scroll advance of the bus variant: `scrollX--` followed by the
wrap test `if (scrollX < -(len*6)) scrollX = 32`. -/
def busAdvance (x : Int) : Int :=
  let x1 := x - 1
  if x1 < busWrapThreshold then 32 else x1

/-- The unconditional register re-read at the top of `loop()` in
`main.cpp` (lines 137-140), which copies all four registers into the
display variables with no range validation. -/
def busReadRegs (regs : HRegs) (s : BusState) : BusState :=
  { s with displayMode := regs.r0, scrollSpeed := regs.r1,
           priceValue := toInt16 regs.r2, timeValue := toInt16 regs.r3 }

/-- The `switch (displayMode)` of `loop()` in `main.cpp`: returns the
updated state and the panel commands issued this tick. -/
def busDispatch (now : Nat) (s : BusState) : BusState × List Cmd :=
  match s.displayMode with
  | 0 => (s, [Cmd.clear])
  | 1 =>
      if s.scrollSpeed ≤ elapsed32 now s.lastScrollTime then
        ({ s with scrollX := busAdvance s.scrollX, lastScrollTime := now },
         [Cmd.clear, Cmd.draw s.scrollX 4 welcomeText])
      else (s, [])
  | 2 => (s, [Cmd.clear, Cmd.draw 2 4 (toString s.priceValue ++ " TL")])
  | 3 => (s, [Cmd.clear, Cmd.draw 2 4 (toString s.timeValue ++ " sn")])
  | _ => (s, [Cmd.clear, Cmd.draw 2 4 "MODE ERROR"])

/-- One pass of `loop()` in `main.cpp` after `mb.task()`: the
unconditional register re-read followed by the mode dispatch. -/
def busLoopTick (regs : HRegs) (now : Nat) (s : BusState) : BusState × List Cmd :=
  busDispatch now (busReadRegs regs s)

/-- Register contents established in `setup()`. -/
def busInitRegs : HRegs := ⟨1, 100, 1500, 60⟩

/-- Display variables after `setup()`: the C++ initializers followed by
the `updateDisplayFromModbus()` call at the end of `setup()`. -/
def busInit : BusState :=
  updateDisplayFromModbus busInitRegs
    { displayMode := 1, scrollSpeed := 100, scrollX := 32,
      lastScrollTime := 0, priceValue := 0, timeValue := 0 }

/-! ### Standalone variant (`src/main_simple.cpp`) -/

/-- `String scrollText` of `main_simple.cpp`. -/
def scrollText : String := "*** PlatformIO ESP8266 P10 LED Panel Projesi *** "

/-- `String staticTexts[]` of `main_simple.cpp`. -/
def staticTextsL : List String :=
  ["MERHABA", "DUNYA!", "ESP8266", "P10 LED", "PANEL", "PROJESI"]

/-- `int staticTextCount = 6`. -/
def staticTextCount : Nat := 6

/-- The global variables of `main_simple.cpp` (including the
function-static `cycleCount` of `loop()`). -/
structure SimpleState where
  textChangeTimer : Nat
  cycleCount : Nat
  textMode : Nat
  isScrolling : Bool
  scrollPosition : Int
  lastUpdate : Nat
  currentStaticIndex : Nat
deriving DecidableEq, Repr

/-- The centered x coordinate computed by `showStaticText()`:
`(dmd.width() - text.length()*6) / 2`, clamped to be nonnegative.  The
panel is 2x1, so `dmd.width() = 64`.  `Int.tdiv` is C truncating
division. -/
def centeredX (text : String) : Int :=
  let textWidth : Int := (text.length : Int) * 6
  let x := Int.tdiv (64 - textWidth) 2
  if x < 0 then 0 else x

/-- The centered y coordinate computed by `showStaticText()`:
`(dmd.height() - 7) / 2` with `dmd.height() = 16`, clamped to be
nonnegative. -/
def centeredY : Int :=
  let y : Int := Int.tdiv (16 - 7) 2
  if y < 0 then 0 else y

/-- `showStaticText()` of `main_simple.cpp`: clear, draw the current
canned string centered, advance the rotation cursor round-robin. -/
def showStaticText (s : SimpleState) : SimpleState × List Cmd :=
  let text := staticTextsL.getD s.currentStaticIndex ""
  ({ s with currentStaticIndex := (s.currentStaticIndex + 1) % staticTextCount },
   [Cmd.clear, Cmd.draw (centeredX text) centeredY text])

/-- `startScrolling()` of `main_simple.cpp`: `scrollPosition =
dmd.width()` (= 64) and `isScrolling = true`, with a clear. -/
def startScrolling (s : SimpleState) : SimpleState × List Cmd :=
  ({ s with isScrolling := true, scrollPosition := 64 }, [Cmd.clear])

/-- The wrap threshold of the standalone scroll:
`-(scrollText.length() * 6)`. -/
def simpleWrapThreshold : Int := -((scrollText.length : Int) * 6)

/-- One scroll advance of the standalone variant: `scrollPosition -= 2`
followed by the wrap test `if (scrollPosition < -textWidth)
scrollPosition = dmd.width()`. -/
def simpleAdvance (p : Int) : Int :=
  let p1 := p - 2
  if p1 < simpleWrapThreshold then 64 else p1

/-- `updateScrolling()` of `main_simple.cpp`: clear, draw the scroll text
at the current position, then advance (with wrap). -/
def updateScrolling (s : SimpleState) : SimpleState × List Cmd :=
  ({ s with scrollPosition := simpleAdvance s.scrollPosition },
   [Cmd.clear, Cmd.draw s.scrollPosition 4 scrollText])

/-- The time string built by `showTime()`:
`String(hours) + ":" + pad(minutes) + ":" + pad(secs)` where only the
minutes and seconds are zero-padded. -/
def pad2 (n : Nat) : String := (if n < 10 then "0" else "") ++ toString n

/-- `showTime()`'s string for a given `millis()` value:
`seconds = millis()/1000`, `hours = (seconds/3600) % 24`,
`minutes = (seconds/60) % 60`, `secs = seconds % 60`. -/
def showTimeString (nowMs : Nat) : String :=
  let seconds := nowMs / 1000
  let hours := (seconds / 3600) % 24
  let minutes := (seconds / 60) % 60
  let secs := seconds % 60
  toString hours ++ ":" ++ pad2 minutes ++ ":" ++ pad2 secs

/-- `showTime()` of `main_simple.cpp`: clear, draw the time string
centered (unclamped) at y = 4. -/
def showTime (nowMs : Nat) (s : SimpleState) : SimpleState × List Cmd :=
  let timeStr := showTimeString nowMs
  (s, [Cmd.clear, Cmd.draw (Int.tdiv (64 - (timeStr.length : Int) * 6) 2) 4 timeStr])

/-- The `switch (textMode)` taken on a dwell boundary in `loop()` of
`main_simple.cpp`. -/
def boundaryAction (t : Nat) (s : SimpleState) : SimpleState × List Cmd :=
  match s.textMode with
  | 0 => showStaticText s
  | 1 => if s.isScrolling then (s, []) else startScrolling s
  | 2 => showTime t s
  | _ => (s, [])

/-- The cycle bookkeeping after the dwell switch: `cycleCount++`, and
after 5 cycles advance `textMode` modulo 3 and reset the scroll state. -/
def advanceCycle (s : SimpleState) : SimpleState :=
  if 5 ≤ s.cycleCount + 1 then
    { s with cycleCount := 0, textMode := (s.textMode + 1) % 3,
             isScrolling := false, scrollPosition := 0 }
  else { s with cycleCount := s.cycleCount + 1 }

/-- A full dwell boundary: stamp `textChangeTimer = currentTime`, run the
mode switch, then the cycle bookkeeping. -/
def simpleBoundary (t : Nat) (s : SimpleState) : SimpleState × List Cmd :=
  let p := boundaryAction t { s with textChangeTimer := t }
  (advanceCycle p.1, p.2)

/-- The scroll-throttling branch of `loop()`:
`if (isScrolling && (currentTime - lastUpdate >= 100)) { lastUpdate =
currentTime; updateScrolling(); }`. -/
def scrollTick (t : Nat) (s : SimpleState) : SimpleState × List Cmd :=
  if s.isScrolling = true ∧ 100 ≤ elapsed32 t s.lastUpdate then
    updateScrolling { s with lastUpdate := t }
  else (s, [])

/-- One pass of `loop()` of `main_simple.cpp` at time `t`: the
3000 ms dwell-boundary check followed by the scroll-throttling check. -/
def simpleStep (t : Nat) (s : SimpleState) : SimpleState × List Cmd :=
  let b := if 3000 ≤ elapsed32 t s.textChangeTimer then simpleBoundary t s else (s, [])
  let r := scrollTick t b.1
  (r.1, b.2 ++ r.2)

/-- The global variables of `main_simple.cpp` right after `setup()`. -/
def simpleInit : SimpleState :=
  { textChangeTimer := 0, cycleCount := 0, textMode := 0, isScrolling := false,
    scrollPosition := 0, lastUpdate := 0, currentStaticIndex := 0 }

/-- The standalone loop polled once per millisecond: `simpleRun n` is the
state after the passes at times `0, 1, ..., n-1`. -/
def simpleRun : Nat → SimpleState
  | 0 => simpleInit
  | n + 1 => (simpleStep n (simpleRun n)).1

/-! ### Helper lemmas -/

/-- As long as the true elapsed time is below `2^32`, the 32-bit modular
difference recovers it exactly. -/
lemma elapsed32_eq (now last : Nat) (h1 : last ≤ now) (h2 : now - last < 4294967296) :
    elapsed32 now last = now - last := by
  unfold elapsed32
  omega

lemma toInt16_high (v : Nat) (h1 : 32768 ≤ v) (h2 : v ≤ 65535) :
    toInt16 v = (v : Int) - 65536 := by
  unfold toInt16
  rw [if_neg (by omega)]
  omega

/-! ### Claim theorems -/

/-- C8: every throttling check in both loops compares the interval
against the 32-bit modular difference `elapsed32` (never against
absolute timestamps), and that check is correct across wrap-around of
the millisecond counter: whenever the true elapsed time `now - last`
is representable in 32 bits, the modular check decides exactly
`interval ≤ now - last`. -/
theorem elapsed_check_wraparound :
    ∀ now last interval : Nat, last ≤ now → now - last < 4294967296 →
      (interval ≤ elapsed32 now last ↔ interval ≤ now - last) := by
  intro now last interval h1 h2
  rw [elapsed32_eq now last h1 h2]

/-- Witness for C8 at a concrete wrap-around: true timestamps 4294967500
and 4294967000 straddle the 32-bit wrap (their 32-bit views are 204 and
4294967000), yet the modular check for a 300 ms interval still decides
the true elapsed time of 500 ms. -/
theorem elapsed_check_wraparound_witness :
    (4294967000 ≤ 4294967500 ∧ 4294967500 - 4294967000 < 4294967296) ∧
    ((300 ≤ elapsed32 4294967500 4294967000) ↔ (300 ≤ 4294967500 - 4294967000)) :=
  ⟨⟨by decide, by decide⟩,
   elapsed_check_wraparound 4294967500 4294967000 300 (by decide) (by decide)⟩

/-- C5: the standalone clock mode formats an elapsed run time of 3661
seconds as "1:01:01": hours `(3661/3600) % 24 = 1` (not zero-padded,
the variant's chosen H:MM:SS format), minutes `(3661/60) % 60 = 1` and
seconds `3661 % 60 = 1` zero-padded. -/
theorem time_format_3661 :
    showTimeString 3661000 = "1:01:01" ∧
    showTimeString 3661000 =
      toString ((3661 / 3600) % 24) ++ ":" ++
        pad2 ((3661 / 60) % 60) ++ ":" ++ pad2 (3661 % 60) := by
  constructor <;> rfl

/-- C10: in the bus variant the price and time registers are
reinterpreted as signed 16-bit values: for any register value `v` with
`32768 ≤ v ≤ 65535`, the tick in price mode renders `v - 65536` followed
by " TL", and the tick in time mode renders `v - 65536` followed by
" sn". -/
theorem registers_signed16_render :
    ∀ (regs : HRegs) (now : Nat) (s : BusState),
      (regs.r0 = 2 → 32768 ≤ regs.r2 → regs.r2 ≤ 65535 →
        (busLoopTick regs now s).2 =
          [Cmd.clear, Cmd.draw 2 4 (toString ((regs.r2 : Int) - 65536) ++ " TL")]) ∧
      (regs.r0 = 3 → 32768 ≤ regs.r3 → regs.r3 ≤ 65535 →
        (busLoopTick regs now s).2 =
          [Cmd.clear, Cmd.draw 2 4 (toString ((regs.r3 : Int) - 65536) ++ " sn")]) := by
  intro regs now s
  constructor
  · intro h0 hlo hhi
    simp [busLoopTick, busReadRegs, busDispatch, h0, toInt16_high regs.r2 hlo hhi]
  · intro h0 hlo hhi
    simp [busLoopTick, busReadRegs, busDispatch, h0, toInt16_high regs.r3 hlo hhi]

/-- Witness for C10: register value 65535 in price mode renders
"-1 TL". -/
theorem registers_signed16_render_witness :
    (busLoopTick ⟨2, 100, 65535, 65535⟩ 0 busInit).2 =
      [Cmd.clear, Cmd.draw 2 4 "-1 TL"] := by
  rw [(registers_signed16_render ⟨2, 100, 65535, 65535⟩ 0 busInit).1 rfl
    (by decide) (by decide)]
  rfl

/-- C9: in the bus variant, any successfully completed Modbus
transaction observed while the mode register (register 0) holds 1
resets the scroll position to 32 (the right edge of the 32-pixel
panel), for every prior state — in particular even when no register
value differs from the current display variables. -/
theorem modbus_success_resets_scroll :
    ∀ (regs : HRegs) (s : BusState), regs.r0 = 1 →
      (modbusCallback ModbusResult.success regs s).scrollX = 32 := by
  intro regs s h0
  simp [modbusCallback, updateDisplayFromModbus, h0, apply_ite BusState.displayMode,
    apply_ite BusState.scrollX]

/-- Witness for C9: a successful transaction that rewrites the setup
register values unchanged still resets the scroll position. -/
theorem modbus_success_resets_scroll_witness :
    (modbusCallback ModbusResult.success busInitRegs
      { busInit with scrollX := -10 }).scrollX = 32 :=
  modbus_success_resets_scroll busInitRegs { busInit with scrollX := -10 } rfl

/-- C1 (code evaluated at the failing input): after a successful Modbus
write of 600 to register 1, `updateDisplayFromModbus` retains the
previous in-range interval 100, but the very next `loop()` pass copies
`Hreg(1) = 600` into `scrollSpeed` unconditionally, so the scroll mode
uses 600 as its interval: at 200 ms elapsed the tick issues no scroll
advance even though the retained interval 100 would have fired. -/
theorem scrollSpeed_validation_bypassed :
    (modbusCallback ModbusResult.success ⟨1, 600, 1500, 60⟩ busInit).scrollSpeed = 100 ∧
    (busLoopTick ⟨1, 600, 1500, 60⟩ 200
      (modbusCallback ModbusResult.success ⟨1, 600, 1500, 60⟩ busInit)).1.scrollSpeed = 600 ∧
    (busLoopTick ⟨1, 600, 1500, 60⟩ 200
      (modbusCallback ModbusResult.success ⟨1, 600, 1500, 60⟩ busInit)).2 = [] ∧
    100 ≤ elapsed32 200
      (modbusCallback ModbusResult.success ⟨1, 600, 1500, 60⟩ busInit).lastScrollTime := by
  refine ⟨by decide, by decide, by decide, by decide⟩

/-- C3: for every mode value outside {0,1,2,3}, the bus tick clears the
screen and renders exactly "MODE ERROR", and the fallback branch mutates
nothing: the dispatch returns the state unchanged (so scroll position,
scroll interval, price and time are untouched by the branch), and at the
level of the whole loop pass the scroll position and scroll timestamp
are untouched as well. -/
theorem invalid_mode_fallback :
    (∀ (now : Nat) (s : BusState), 4 ≤ s.displayMode →
        busDispatch now s = (s, [Cmd.clear, Cmd.draw 2 4 "MODE ERROR"])) ∧
    (∀ (regs : HRegs) (now : Nat) (s : BusState), 4 ≤ regs.r0 →
        (busLoopTick regs now s).2 = [Cmd.clear, Cmd.draw 2 4 "MODE ERROR"] ∧
        (busLoopTick regs now s).1.scrollX = s.scrollX ∧
        (busLoopTick regs now s).1.lastScrollTime = s.lastScrollTime) := by
  have hdisp : ∀ (now : Nat) (s : BusState), 4 ≤ s.displayMode →
      busDispatch now s = (s, [Cmd.clear, Cmd.draw 2 4 "MODE ERROR"]) := by
    intro now s h
    unfold busDispatch
    split <;> first | rfl | (exfalso; omega)
  refine ⟨hdisp, ?_⟩
  intro regs now s h
  have h4 : 4 ≤ (busReadRegs regs s).displayMode := h
  rw [busLoopTick, hdisp now (busReadRegs regs s) h4]
  exact ⟨rfl, rfl, rfl⟩

/-- Witness for C3: mode value 7 renders the fallback and changes
nothing. -/
theorem invalid_mode_fallback_witness :
    busDispatch 0 { busInit with displayMode := 7 } =
      ({ busInit with displayMode := 7 }, [Cmd.clear, Cmd.draw 2 4 "MODE ERROR"]) :=
  invalid_mode_fallback.1 0 { busInit with displayMode := 7 } (by decide)

/-- C2: on every qualifying scroll tick the position decreases by
exactly the step (1 in the bus variant, 2 in the standalone variant) and
wraps to the panel width (+32 resp. +64) exactly when it would pass the
wrap threshold `-(6 * textLength)`; starting from the initial states the
position always stays in `[threshold, panelWidth]`, so the text is never
drawn below the threshold (the draw always happens at the pre-advance
position). -/
theorem scroll_advance_wrap :
    (∀ (now : Nat) (s : BusState), s.displayMode = 1 →
        s.scrollSpeed ≤ elapsed32 now s.lastScrollTime →
        busDispatch now s =
          ({ s with scrollX := busAdvance s.scrollX, lastScrollTime := now },
           [Cmd.clear, Cmd.draw s.scrollX 4 welcomeText])) ∧
    (∀ x : Int, busWrapThreshold ≤ x - 1 → busAdvance x = x - 1) ∧
    (∀ x : Int, x - 1 < busWrapThreshold → busAdvance x = 32) ∧
    (∀ x : Int, busWrapThreshold ≤ x → x ≤ 32 →
        busWrapThreshold ≤ busAdvance x ∧ busAdvance x ≤ 32) ∧
    (busWrapThreshold ≤ busInit.scrollX ∧ busInit.scrollX ≤ 32) ∧
    (∀ (regs : HRegs) (now : Nat) (s : BusState),
        busWrapThreshold ≤ s.scrollX → s.scrollX ≤ 32 →
        busWrapThreshold ≤ (busLoopTick regs now s).1.scrollX ∧
          (busLoopTick regs now s).1.scrollX ≤ 32) ∧
    (∀ (e : ModbusResult) (regs : HRegs) (s : BusState),
        busWrapThreshold ≤ s.scrollX → s.scrollX ≤ 32 →
        busWrapThreshold ≤ (modbusCallback e regs s).scrollX ∧
          (modbusCallback e regs s).scrollX ≤ 32) ∧
    (∀ (t : Nat) (s : SimpleState), ¬ 3000 ≤ elapsed32 t s.textChangeTimer →
        s.isScrolling = true → 100 ≤ elapsed32 t s.lastUpdate →
        simpleStep t s =
          ({ s with lastUpdate := t, scrollPosition := simpleAdvance s.scrollPosition },
           [Cmd.clear, Cmd.draw s.scrollPosition 4 scrollText])) ∧
    (∀ p : Int, simpleWrapThreshold ≤ p - 2 → simpleAdvance p = p - 2) ∧
    (∀ p : Int, p - 2 < simpleWrapThreshold → simpleAdvance p = 64) ∧
    (∀ p : Int, simpleWrapThreshold ≤ p → p ≤ 64 →
        simpleWrapThreshold ≤ simpleAdvance p ∧ simpleAdvance p ≤ 64) ∧
    (simpleWrapThreshold ≤ simpleInit.scrollPosition ∧ simpleInit.scrollPosition ≤ 64) ∧
    (∀ (t : Nat) (s : SimpleState),
        simpleWrapThreshold ≤ s.scrollPosition → s.scrollPosition ≤ 64 →
        simpleWrapThreshold ≤ (simpleStep t s).1.scrollPosition ∧
          (simpleStep t s).1.scrollPosition ≤ 64) := by
  have hbt : busWrapThreshold = (-42 : Int) := by decide
  have hst : simpleWrapThreshold = (-294 : Int) := by decide
  have hbadv3 : ∀ x : Int, busWrapThreshold ≤ x → x ≤ 32 →
      busWrapThreshold ≤ busAdvance x ∧ busAdvance x ≤ 32 := by
    intro x h1 h2
    simp only [busAdvance]
    split <;> omega
  have hsadv3 : ∀ p : Int, simpleWrapThreshold ≤ p → p ≤ 64 →
      simpleWrapThreshold ≤ simpleAdvance p ∧ simpleAdvance p ≤ 64 := by
    intro p h1 h2
    simp only [simpleAdvance]
    split <;> omega
  have hact : ∀ (t : Nat) (s : SimpleState),
      (boundaryAction t s).1.scrollPosition = s.scrollPosition ∨
      (boundaryAction t s).1.scrollPosition = 64 := by
    intro t s
    unfold boundaryAction showStaticText startScrolling showTime
    split
    · left; rfl
    · split
      · left; rfl
      · right; rfl
    · left; rfl
    · left; rfl
  have hcyc : ∀ s : SimpleState,
      (advanceCycle s).scrollPosition = s.scrollPosition ∨
      (advanceCycle s).scrollPosition = 0 := by
    intro s
    unfold advanceCycle
    split
    · right; rfl
    · left; rfl
  have hbpos : ∀ (t : Nat) (s : SimpleState),
      (simpleBoundary t s).1.scrollPosition = s.scrollPosition ∨
      (simpleBoundary t s).1.scrollPosition = 64 ∨
      (simpleBoundary t s).1.scrollPosition = 0 := by
    intro t s
    simp only [simpleBoundary]
    rcases hcyc (boundaryAction t { s with textChangeTimer := t }).1 with h | h
    · rcases hact t { s with textChangeTimer := t } with h2 | h2
      · left; rw [h, h2]
      · right; left; rw [h, h2]
    · right; right; exact h
  have hspos : ∀ (t : Nat) (s : SimpleState),
      (scrollTick t s).1.scrollPosition = s.scrollPosition ∨
      (scrollTick t s).1.scrollPosition = simpleAdvance s.scrollPosition := by
    intro t s
    unfold scrollTick updateScrolling
    split <;> simp
  have hsiminv : ∀ (t : Nat) (s : SimpleState),
      simpleWrapThreshold ≤ s.scrollPosition → s.scrollPosition ≤ 64 →
      simpleWrapThreshold ≤ (simpleStep t s).1.scrollPosition ∧
        (simpleStep t s).1.scrollPosition ≤ 64 := by
    intro t s h1 h2
    have hb : simpleWrapThreshold ≤ (if 3000 ≤ elapsed32 t s.textChangeTimer then
          simpleBoundary t s else (s, [])).1.scrollPosition ∧
        (if 3000 ≤ elapsed32 t s.textChangeTimer then
          simpleBoundary t s else (s, [])).1.scrollPosition ≤ 64 := by
      split
      · rcases hbpos t s with h | h | h <;> rw [h] <;> omega
      · exact ⟨h1, h2⟩
    rw [simpleStep]
    rcases hspos t (if 3000 ≤ elapsed32 t s.textChangeTimer then
        simpleBoundary t s else (s, [])).1 with h | h <;> rw [h]
    · exact hb
    · exact hsadv3 _ hb.1 hb.2
  refine ⟨?_, ?_, ?_, hbadv3, ?_, ?_, ?_, ?_, ?_, ?_, hsadv3, ?_, hsiminv⟩
  · intro now s h1 hq
    unfold busDispatch
    rw [h1]
    simp [hq]
  · intro x h
    simp only [busAdvance]
    rw [if_neg (by omega)]
  · intro x h
    simp only [busAdvance]
    rw [if_pos h]
  · constructor <;> decide
  · intro regs now s h1 h2
    have hrd : (busReadRegs regs s).scrollX = s.scrollX := rfl
    rw [busLoopTick]
    unfold busDispatch
    split <;> first
      | exact ⟨h1, h2⟩
      | (split
         · exact hbadv3 s.scrollX h1 h2
         · exact ⟨h1, h2⟩)
  · intro e regs s h1 h2
    unfold modbusCallback
    split
    · simp only [updateDisplayFromModbus, apply_ite BusState.scrollX,
        apply_ite BusState.displayMode, ite_self]
      split <;> omega
    · exact ⟨h1, h2⟩
  · intro t s hnb hscr hq
    have hscrollTick : scrollTick t s =
        ({ s with lastUpdate := t, scrollPosition := simpleAdvance s.scrollPosition },
         [Cmd.clear, Cmd.draw s.scrollPosition 4 scrollText]) := by
      unfold scrollTick
      rw [if_pos ⟨hscr, hq⟩]
      rfl
    unfold simpleStep
    rw [if_neg hnb]
    simp only []
    rw [hscrollTick]
    simp
  · intro p h
    simp only [simpleAdvance]
    rw [if_neg (by omega)]
  · intro p h
    simp only [simpleAdvance]
    rw [if_pos h]
  · constructor <;> decide

/-- Witness for C2: one bus advance from position 0 (no wrap) and one
from the wrap threshold -42 (wrap to 32), and the standalone analogues
from 0 and -294 (wrap to 64). -/
theorem scroll_advance_wrap_witness :
    busAdvance 0 = 0 - 1 ∧ busAdvance (-42) = 32 ∧
    simpleAdvance 0 = 0 - 2 ∧ simpleAdvance (-294) = 64 :=
  ⟨scroll_advance_wrap.2.1 0 (by decide),
   scroll_advance_wrap.2.2.1 (-42) (by decide),
   scroll_advance_wrap.2.2.2.2.2.2.2.2.1 0 (by decide),
   scroll_advance_wrap.2.2.2.2.2.2.2.2.2.1 (-294) (by decide)⟩

/-! ### Field characterization of the standalone step (for the timing
closed form) -/

lemma scrollTick_fields (t : Nat) (s : SimpleState) :
    (scrollTick t s).1.textChangeTimer = s.textChangeTimer ∧
    (scrollTick t s).1.cycleCount = s.cycleCount ∧
    (scrollTick t s).1.textMode = s.textMode ∧
    (scrollTick t s).1.isScrolling = s.isScrolling ∧
    (scrollTick t s).1.currentStaticIndex = s.currentStaticIndex := by
  unfold scrollTick updateScrolling
  split <;> simp

lemma boundaryAction_fields (t : Nat) (s : SimpleState) :
    (boundaryAction t s).1.textChangeTimer = s.textChangeTimer ∧
    (boundaryAction t s).1.cycleCount = s.cycleCount ∧
    (boundaryAction t s).1.textMode = s.textMode ∧
    (boundaryAction t s).1.isScrolling = (s.isScrolling || decide (s.textMode = 1)) ∧
    (boundaryAction t s).1.currentStaticIndex =
      (if s.textMode = 0 then (s.currentStaticIndex + 1) % 6 else s.currentStaticIndex) := by
  unfold boundaryAction showStaticText startScrolling showTime
  split <;> (try split) <;> simp_all [staticTextCount]

lemma advanceCycle_fields (s : SimpleState) :
    (advanceCycle s).textChangeTimer = s.textChangeTimer ∧
    (advanceCycle s).cycleCount = (if 5 ≤ s.cycleCount + 1 then 0 else s.cycleCount + 1) ∧
    (advanceCycle s).textMode =
      (if 5 ≤ s.cycleCount + 1 then (s.textMode + 1) % 3 else s.textMode) ∧
    (advanceCycle s).isScrolling = (if 5 ≤ s.cycleCount + 1 then false else s.isScrolling) ∧
    (advanceCycle s).currentStaticIndex = s.currentStaticIndex := by
  unfold advanceCycle
  split <;> simp_all

lemma simpleBoundary_fields (t : Nat) (s : SimpleState) :
    (simpleBoundary t s).1.textChangeTimer = t ∧
    (simpleBoundary t s).1.cycleCount = (if 5 ≤ s.cycleCount + 1 then 0 else s.cycleCount + 1) ∧
    (simpleBoundary t s).1.textMode =
      (if 5 ≤ s.cycleCount + 1 then (s.textMode + 1) % 3 else s.textMode) ∧
    (simpleBoundary t s).1.isScrolling =
      (if 5 ≤ s.cycleCount + 1 then false else (s.isScrolling || decide (s.textMode = 1))) ∧
    (simpleBoundary t s).1.currentStaticIndex =
      (if s.textMode = 0 then (s.currentStaticIndex + 1) % 6 else s.currentStaticIndex) := by
  have ha := boundaryAction_fields t { s with textChangeTimer := t }
  have hc := advanceCycle_fields (boundaryAction t { s with textChangeTimer := t }).1
  unfold simpleBoundary
  simp only [hc.1, hc.2.1, hc.2.2.1, hc.2.2.2.1, hc.2.2.2.2,
    ha.1, ha.2.1, ha.2.2.1, ha.2.2.2.1, ha.2.2.2.2]
  exact ⟨trivial, trivial, trivial, trivial, trivial⟩

lemma simpleStep_fields (t : Nat) (s : SimpleState) :
    (simpleStep t s).1.textChangeTimer =
      (if 3000 ≤ elapsed32 t s.textChangeTimer then t else s.textChangeTimer) ∧
    (simpleStep t s).1.cycleCount =
      (if 3000 ≤ elapsed32 t s.textChangeTimer then
        (if 5 ≤ s.cycleCount + 1 then 0 else s.cycleCount + 1) else s.cycleCount) ∧
    (simpleStep t s).1.textMode =
      (if 3000 ≤ elapsed32 t s.textChangeTimer then
        (if 5 ≤ s.cycleCount + 1 then (s.textMode + 1) % 3 else s.textMode) else s.textMode) ∧
    (simpleStep t s).1.isScrolling =
      (if 3000 ≤ elapsed32 t s.textChangeTimer then
        (if 5 ≤ s.cycleCount + 1 then false else (s.isScrolling || decide (s.textMode = 1)))
        else s.isScrolling) ∧
    (simpleStep t s).1.currentStaticIndex =
      (if 3000 ≤ elapsed32 t s.textChangeTimer then
        (if s.textMode = 0 then (s.currentStaticIndex + 1) % 6 else s.currentStaticIndex)
        else s.currentStaticIndex) := by
  by_cases hg : 3000 ≤ elapsed32 t s.textChangeTimer
  · have hstep : (simpleStep t s).1 = (scrollTick t (simpleBoundary t s).1).1 := by
      unfold simpleStep
      rw [if_pos hg]
    have hb := simpleBoundary_fields t s
    have ht := scrollTick_fields t (simpleBoundary t s).1
    rw [hstep]
    simp only [if_pos hg]
    exact ⟨by rw [ht.1, hb.1], by rw [ht.2.1, hb.2.1], by rw [ht.2.2.1, hb.2.2.1],
      by rw [ht.2.2.2.1, hb.2.2.2.1], by rw [ht.2.2.2.2, hb.2.2.2.2]⟩
  · have hstep : (simpleStep t s).1 = (scrollTick t s).1 := by
      unfold simpleStep
      rw [if_neg hg]
    have ht := scrollTick_fields t s
    rw [hstep]
    simp only [if_neg hg]
    exact ht

/-- Closed form of the schedule fields of the standalone run under
1 ms-granularity polling: after processing times `0..n`, the dwell timer
sits at the last multiple of 3000, the cycle counter, outer mode and
rotation cursor are determined by the number `n / 3000` of elapsed dwell
boundaries, and the scroll flag is on exactly inside a scroll-mode era
that has already had its first boundary. -/
lemma simpleRun_closed : ∀ n : Nat,
    (simpleRun (n+1)).textChangeTimer = 3000 * (n / 3000) ∧
    (simpleRun (n+1)).cycleCount = (n / 3000) % 5 ∧
    (simpleRun (n+1)).textMode = (n / 3000 / 5) % 3 ∧
    (simpleRun (n+1)).isScrolling =
      decide ((n / 3000 / 5) % 3 = 1 ∧ (n / 3000) % 5 ≠ 0) ∧
    (simpleRun (n+1)).currentStaticIndex =
      (5 * (n / 3000 / 15) + min ((n / 3000) % 15) 5) % 6 := by
  intro n
  induction n with
  | zero => decide
  | succ n ih =>
    obtain ⟨ih1, ih2, ih3, ih4, ih5⟩ := ih
    obtain ⟨f1, f2, f3, f4, f5⟩ := simpleStep_fields (n+1) (simpleRun (n+1))
    have hrun : simpleRun (n+1+1) = (simpleStep (n+1) (simpleRun (n+1))).1 := by
      rw [simpleRun]
    by_cases hf : 3000 ≤ (n+1) - 3000 * (n / 3000)
    · have hg : 3000 ≤ elapsed32 (n+1) (simpleRun (n+1)).textChangeTimer := by
        rw [ih1, elapsed32_eq (n+1) (3000 * (n / 3000)) (by omega) (by omega)]
        exact hf
      have hBp : (n+1) / 3000 = n / 3000 + 1 := by omega
      rw [hrun]
      refine ⟨?_, ?_, ?_, ?_, ?_⟩
      · rw [f1, if_pos hg, hBp]
        omega
      · rw [f2, if_pos hg, ih2, hBp]
        split <;> omega
      · rw [f3, if_pos hg, ih2, ih3, hBp]
        split <;> omega
      · rw [f4, if_pos hg, ih2, ih3, ih4, hBp]
        by_cases h45 : 5 ≤ (n / 3000) % 5 + 1
        · rw [if_pos h45]
          have h0 : (n / 3000 + 1) % 5 = 0 := by omega
          simp [h0]
        · rw [if_neg h45]
          have e1 : (n / 3000 + 1) / 5 = n / 3000 / 5 := by omega
          have e2 : (n / 3000 + 1) % 5 = (n / 3000) % 5 + 1 := by omega
          rw [e1, e2]
          by_cases hm1 : (n / 3000 / 5) % 3 = 1 <;> simp [hm1, h45]
      · rw [f5, if_pos hg, ih3, ih5, hBp]
        by_cases hm0 : (n / 3000 / 5) % 3 = 0
        · rw [if_pos hm0]
          have hf6 : 5 * ((n / 3000 + 1) / 15) + min ((n / 3000 + 1) % 15) 5 =
              (5 * (n / 3000 / 15) + min ((n / 3000) % 15) 5) + 1 := by omega
          rw [hf6]
          omega
        · rw [if_neg hm0]
          have hf6 : 5 * ((n / 3000 + 1) / 15) + min ((n / 3000 + 1) % 15) 5 =
              5 * (n / 3000 / 15) + min ((n / 3000) % 15) 5 := by omega
          rw [hf6]
    · have hg : ¬ 3000 ≤ elapsed32 (n+1) (simpleRun (n+1)).textChangeTimer := by
        rw [ih1, elapsed32_eq (n+1) (3000 * (n / 3000)) (by omega) (by omega)]
        exact hf
      have hBe : (n+1) / 3000 = n / 3000 := by omega
      rw [hrun]
      refine ⟨?_, ?_, ?_, ?_, ?_⟩ <;> rw [hBe]
      · rw [f1, if_neg hg, ih1]
      · rw [f2, if_neg hg, ih2]
      · rw [f3, if_neg hg, ih3]
      · rw [f4, if_neg hg, ih4]
      · rw [f5, if_neg hg, ih5]

/-- C6: in the standalone variant polled at 1 ms granularity, the outer
`textMode` equals `(t / 15000) % 3`, i.e. it advances by exactly one
(modulo 3) once every `5 * 3000` ms of elapsed time; and on every dwell
boundary taken while the static-rotation mode is active, the string
cursor advances round-robin modulo the 6 canned strings. -/
theorem mode_schedule_and_rotation :
    (∀ t : Nat, (simpleRun (t+1)).textMode = (t / 15000) % 3) ∧
    (∀ (t : Nat) (s : SimpleState), 3000 ≤ elapsed32 t s.textChangeTimer →
        s.textMode = 0 →
        (simpleStep t s).1.currentStaticIndex = (s.currentStaticIndex + 1) % 6) := by
  constructor
  · intro t
    have h := (simpleRun_closed t).2.2.1
    rw [h, Nat.div_div_eq_div_mul]
  · intro t s hb hm
    have h := (simpleStep_fields t s).2.2.2.2
    rw [h, if_pos hb, if_pos hm]

/-- Witness for C6: a concrete boundary tick in static-rotation mode
advances the cursor from 3 to 4. -/
theorem mode_schedule_and_rotation_witness :
    (simpleStep 3000
      { textChangeTimer := 0, cycleCount := 0, textMode := 0, isScrolling := false,
        scrollPosition := 0, lastUpdate := 0,
        currentStaticIndex := 3 }).1.currentStaticIndex = (3 + 1) % 6 :=
  mode_schedule_and_rotation.2 3000
    { textChangeTimer := 0, cycleCount := 0, textMode := 0, isScrolling := false,
      scrollPosition := 0, lastUpdate := 0, currentStaticIndex := 3 }
    (by decide) rfl

/-- On a dwell boundary in static-rotation mode (scroll flag off), the
standalone tick emits exactly a clear followed by the centered draw of
the current canned string. -/
lemma static_boundary_cmds (t : Nat) (s : SimpleState)
    (hb : 3000 ≤ elapsed32 t s.textChangeTimer) (hm : s.textMode = 0)
    (hscr : s.isScrolling = false) :
    (simpleStep t s).2 =
      [Cmd.clear,
       Cmd.draw (centeredX (staticTextsL.getD s.currentStaticIndex ""))
         centeredY (staticTextsL.getD s.currentStaticIndex "")] := by
  have hact : boundaryAction t { s with textChangeTimer := t } =
      showStaticText { s with textChangeTimer := t } := by
    simp only [boundaryAction, hm]
  have hcmds : (simpleBoundary t s).2 = (showStaticText { s with textChangeTimer := t }).2 := by
    unfold simpleBoundary
    rw [hact]
  have hsb_scroll : (simpleBoundary t s).1.isScrolling = false := by
    have h := (simpleBoundary_fields t s).2.2.2.1
    rw [h]
    split
    · rfl
    · simp [hscr, hm]
  have hst : scrollTick t (simpleBoundary t s).1 = ((simpleBoundary t s).1, []) := by
    unfold scrollTick
    rw [if_neg]
    intro hcon
    obtain ⟨h1, _⟩ := hcon
    rw [hsb_scroll] at h1
    exact absurd h1 (by decide)
  unfold simpleStep
  rw [if_pos hb]
  simp only []
  rw [hst, hcmds]
  simp [showStaticText]

/-- C7: on every static-rotation dwell boundary, the current canned
string is drawn at `x = (panelWidth - 6*textLength)/2` and
`y = (panelHeight - 7)/2` (C truncating division), each clamped to be at
least 0; with the 64x16 panel the y coordinate is 4. -/
theorem static_text_centered :
    (∀ (t : Nat) (s : SimpleState),
        3000 ≤ elapsed32 t s.textChangeTimer → s.textMode = 0 → s.isScrolling = false →
        (simpleStep t s).2 =
          [Cmd.clear,
           Cmd.draw (centeredX (staticTextsL.getD s.currentStaticIndex ""))
             centeredY (staticTextsL.getD s.currentStaticIndex "")]) ∧
    (∀ text : String,
        centeredX text = max 0 (Int.tdiv (64 - (text.length : Int) * 6) 2)) ∧
    centeredY = max 0 (Int.tdiv (16 - 7) 2) ∧ centeredY = 4 := by
  refine ⟨static_boundary_cmds, ?_, by decide, by decide⟩
  intro text
  simp only [centeredX]
  rw [max_def]
  split <;> split <;> omega

/-- Witness for C7: the first dwell boundary of the run draws "MERHABA"
centered. -/
theorem static_text_centered_witness :
    (simpleStep 3000 simpleInit).2 =
      [Cmd.clear, Cmd.draw (centeredX "MERHABA") centeredY "MERHABA"] := by
  rw [static_text_centered.1 3000 simpleInit (by decide) rfl rfl]
  rfl

/-- C4 (amended): on a mode change, scroll state is reset before the
first render of the new mode — in the bus variant a register refresh
with mode 1 puts the scroll position back at +32, and in the standalone
variant the mode-change boundary zeroes the cycle counter, clears the
scroll flag and scroll position, and the first scroll-mode boundary
(`startScrolling`) puts every scroll-text draw at the right edge +64 —
but the static-rotation cursor is NOT reset by a mode change: it keeps
its value (shown here for a change out of the clock mode). -/
theorem mode_reentry_reset :
    (∀ (regs : HRegs) (s : BusState), regs.r0 = 1 →
        (updateDisplayFromModbus regs s).scrollX = 32) ∧
    (∀ (t : Nat) (s : SimpleState), 3000 ≤ elapsed32 t s.textChangeTimer →
        s.cycleCount = 4 →
        (simpleStep t s).1.cycleCount = 0 ∧
        (simpleStep t s).1.textMode = (s.textMode + 1) % 3 ∧
        (simpleStep t s).1.isScrolling = false ∧
        (simpleStep t s).1.scrollPosition = 0 ∧
        (s.textMode = 2 → (simpleStep t s).1.currentStaticIndex = s.currentStaticIndex)) ∧
    (∀ (t : Nat) (s : SimpleState), 3000 ≤ elapsed32 t s.textChangeTimer →
        s.textMode = 1 → s.isScrolling = false →
        ∀ x y txt, Cmd.draw x y txt ∈ (simpleStep t s).2 → x = 64) := by
  refine ⟨?_, ?_, ?_⟩
  · intro regs s h0
    simp [updateDisplayFromModbus, h0, apply_ite BusState.displayMode,
      apply_ite BusState.scrollX]
  · intro t s hb hc4
    obtain ⟨f1, f2, f3, f4, f5⟩ := simpleStep_fields t s
    have h5 : 5 ≤ s.cycleCount + 1 := by omega
    have hsb : (simpleBoundary t s).1.scrollPosition = 0 ∧
        (simpleBoundary t s).1.isScrolling = false := by
      have hpc : (boundaryAction t { s with textChangeTimer := t }).1.cycleCount =
          s.cycleCount := (boundaryAction_fields t { s with textChangeTimer := t }).2.1
      have hcond : 5 ≤ (boundaryAction t { s with textChangeTimer := t }).1.cycleCount + 1 := by
        rw [hpc]
        omega
      simp only [simpleBoundary, advanceCycle, if_pos hcond]
      exact ⟨trivial, trivial⟩
    have hst : scrollTick t (simpleBoundary t s).1 = ((simpleBoundary t s).1, []) := by
      unfold scrollTick
      rw [if_neg]
      intro hcon
      obtain ⟨h1, _⟩ := hcon
      rw [hsb.2] at h1
      exact absurd h1 (by decide)
    have hpos : (simpleStep t s).1.scrollPosition = 0 := by
      unfold simpleStep
      rw [if_pos hb]
      simp only []
      rw [hst]
      exact hsb.1
    refine ⟨?_, ?_, ?_, hpos, ?_⟩
    · rw [f2, if_pos hb, if_pos h5]
    · rw [f3, if_pos hb, if_pos h5]
    · rw [f4, if_pos hb, if_pos h5]
    · intro hm2
      rw [f5, if_pos hb, if_neg (by omega)]
  · intro t s hb hm hscr x y txt hmem
    have hact : boundaryAction t { s with textChangeTimer := t } =
        startScrolling { s with textChangeTimer := t } := by
      simp only [boundaryAction, hm, hscr]
      rw [if_neg (by simp [hscr])]
    have hbnd : simpleBoundary t s =
        (advanceCycle (startScrolling { s with textChangeTimer := t }).1, [Cmd.clear]) := by
      unfold simpleBoundary
      rw [hact]
      rfl
    have hmem2 : Cmd.draw x y txt ∈ (simpleStep t s).2 → Cmd.draw x y txt ∈
        [Cmd.clear] ++
          (scrollTick t (advanceCycle (startScrolling { s with textChangeTimer := t }).1)).2 := by
      unfold simpleStep
      rw [if_pos hb]
      simp only []
      rw [hbnd]
      exact id
    have hmem3 := hmem2 hmem
    rcases le_or_lt 5 ((startScrolling { s with textChangeTimer := t }).1.cycleCount + 1)
      with h5 | h5
    · have hoff : (advanceCycle (startScrolling { s with textChangeTimer := t }).1).isScrolling
          = false := by
        rw [(advanceCycle_fields (startScrolling { s with textChangeTimer := t }).1).2.2.2.1,
          if_pos h5]
      have : scrollTick t (advanceCycle (startScrolling { s with textChangeTimer := t }).1) =
          (advanceCycle (startScrolling { s with textChangeTimer := t }).1, []) := by
        unfold scrollTick
        rw [if_neg]
        intro hcon
        obtain ⟨h1, _⟩ := hcon
        rw [hoff] at h1
        exact absurd h1 (by decide)
      rw [this] at hmem3
      simp at hmem3
    · have hAc : advanceCycle (startScrolling { s with textChangeTimer := t }).1 =
          { (startScrolling { s with textChangeTimer := t }).1 with
            cycleCount := (startScrolling { s with textChangeTimer := t }).1.cycleCount + 1 } := by
        unfold advanceCycle
        rw [if_neg (by omega)]
      rw [hAc] at hmem3
      unfold scrollTick updateScrolling at hmem3
      split at hmem3
      · simp at hmem3
        exact hmem3.1
      · simp at hmem3

/-- Witness for C4 (amended): a concrete mode-change boundary out of
the clock mode resets the cycle counter and scroll state, advances the
mode to static rotation, and keeps the rotation cursor at 5. -/
theorem mode_reentry_reset_witness :
    (updateDisplayFromModbus ⟨1, 100, 1500, 60⟩ { busInit with scrollX := -7 }).scrollX = 32 ∧
    ((simpleStep 3000
        { textChangeTimer := 0, cycleCount := 4, textMode := 2, isScrolling := false,
          scrollPosition := 0, lastUpdate := 0, currentStaticIndex := 5 }).1.cycleCount = 0 ∧
      (simpleStep 3000
        { textChangeTimer := 0, cycleCount := 4, textMode := 2, isScrolling := false,
          scrollPosition := 0, lastUpdate := 0, currentStaticIndex := 5 }).1.textMode =
        (2 + 1) % 3 ∧
      (simpleStep 3000
        { textChangeTimer := 0, cycleCount := 4, textMode := 2, isScrolling := false,
          scrollPosition := 0, lastUpdate := 0, currentStaticIndex := 5 }).1.isScrolling =
        false ∧
      (simpleStep 3000
        { textChangeTimer := 0, cycleCount := 4, textMode := 2, isScrolling := false,
          scrollPosition := 0, lastUpdate := 0, currentStaticIndex := 5 }).1.scrollPosition =
        0 ∧
      ((2 : Nat) = 2 → (simpleStep 3000
        { textChangeTimer := 0, cycleCount := 4, textMode := 2, isScrolling := false,
          scrollPosition := 0, lastUpdate := 0,
          currentStaticIndex := 5 }).1.currentStaticIndex = 5)) :=
  ⟨mode_reentry_reset.1 ⟨1, 100, 1500, 60⟩ { busInit with scrollX := -7 } rfl,
   mode_reentry_reset.2.1 3000
    { textChangeTimer := 0, cycleCount := 4, textMode := 2, isScrolling := false,
      scrollPosition := 0, lastUpdate := 0, currentStaticIndex := 5 }
    (by decide) rfl⟩

/-- C4 counterexample: in the standalone run the outer mode changes from
the clock mode (2) back to static rotation (0) at t = 45000 ms, but the
rotation cursor is not reset to its initial value 0: at the first
static-rotation boundary after the change (t = 48000 ms) the cursor
still holds 5 and the tick renders "PROJESI", not the first canned
string. -/
theorem rotation_state_not_reset :
    (simpleRun 45000).textMode = 2 ∧
    (simpleRun 45001).textMode = 0 ∧
    (simpleRun 48000).currentStaticIndex = 5 ∧
    (simpleRun 48000).currentStaticIndex ≠ simpleInit.currentStaticIndex ∧
    (simpleStep 48000 (simpleRun 48000)).2 =
      [Cmd.clear, Cmd.draw (centeredX "PROJESI") centeredY "PROJESI"] := by
  have h1 := (simpleRun_closed 44999).2.2.1
  have h2 := (simpleRun_closed 45000).2.2.1
  obtain ⟨g1, g2, g3, g4, g5⟩ := simpleRun_closed 47999
  have e1 : (44999 : Nat) / 3000 / 5 % 3 = 2 := by norm_num
  have e2 : (45000 : Nat) / 3000 / 5 % 3 = 0 := by norm_num
  have e3 : (5 * ((47999 : Nat) / 3000 / 15) + min ((47999 : Nat) / 3000 % 15) 5) % 6 = 5 := by
    norm_num
  have e4 : (3000 : Nat) * ((47999 : Nat) / 3000) = 45000 := by norm_num
  have e5 : ((47999 : Nat) / 3000 / 5) % 3 = 0 := by norm_num
  have e6 : decide (((47999 : Nat) / 3000 / 5) % 3 = 1 ∧ (47999 : Nat) / 3000 % 5 ≠ 0)
      = false := by decide
  rw [e1] at h1
  rw [e2] at h2
  rw [e3] at g5
  rw [e4] at g1
  rw [e5] at g3
  rw [e6] at g4
  have hB : 3000 ≤ elapsed32 48000 (simpleRun 48000).textChangeTimer := by
    have : (simpleRun 48000).textChangeTimer = 45000 := g1
    rw [this]
    decide
  have hrender := static_boundary_cmds 48000 (simpleRun 48000) hB g3 g4
  refine ⟨h1, h2, g5, ?_, ?_⟩
  · rw [g5]
    decide
  · rw [hrender, g5]
    rfl

end P10
